import Mathlib

/-!
Verification development for the MCP BMI client (`bmiclient.py`).

The file shallowly embeds the client's core logic:

* JSON values are modelled by the inductive `Json`; objects are association
  lists (`json.loads` produces dicts with unique keys, so lookup order is
  immaterial).  JSON numbers are modelled as integers, since no behaviour of
  the client depends on numeric values.
* The Python standard-library parser `json.loads` is an external library
  function and is modelled abstractly as a strict parser
  `loads : String → Option Json` carried in the environment `Env`
  (`none` models a raised `json.JSONDecodeError`).
* The completion service (`llm_client`) and the tool-execution service
  (`session.call_tool`) are the external collaborators; they are modelled as
  oracle functions in `Env` returning `Except String _`, where `Except.error`
  models a raised exception carrying its message.
* The session loop `run` is modelled as a pure function over the environment,
  a tool catalog and the list of input lines, producing the sequence of
  observable events (gateway calls, dispatch calls, printed lines) and a
  final outcome.  An `Except.error` from an oracle at a call site that the
  Python code does not guard with `try` becomes a `crash` outcome, modelling
  an exception propagating out of the loop.
-/

inductive Json where
  | null : Json
  | bool : Bool → Json
  | num : Int → Json
  | str : String → Json
  | arr : List Json → Json
  | obj : List (String × Json) → Json

/-- Key lookup in a parsed JSON object, modelling Python `d[k]` / `d.get(k)` /
`k in d` on the dict produced by `json.loads` (keys are unique there). -/
def jsonGet (kvs : List (String × Json)) (k : String) : Option Json :=
  match kvs with
  | [] => none
  | (k', v) :: rest => if k' = k then some v else jsonGet rest k

/-- Python type name of a JSON-decoded value, as it appears in an
`AttributeError` message. -/
def pyTypeName : Json → String
  | Json.null => "NoneType"
  | Json.bool _ => "bool"
  | Json.num _ => "int"
  | Json.str _ => "str"
  | Json.arr _ => "list"
  | Json.obj _ => "dict"

mutual

/-- Python `repr` of a JSON-decoded value (modulo escaping inside string
literals, which the client never depends on). -/
def pyRepr : Json → String
  | Json.null => "None"
  | Json.bool true => "True"
  | Json.bool false => "False"
  | Json.num n => toString n
  | Json.str s => "'" ++ s ++ "'"
  | Json.arr xs => "[" ++ pyReprList xs ++ "]"
  | Json.obj kvs => "\x7b" ++ pyReprKVs kvs ++ "\x7d"

def pyReprList : List Json → String
  | [] => ""
  | [x] => pyRepr x
  | x :: xs => pyRepr x ++ ", " ++ pyReprList xs

def pyReprKVs : List (String × Json) → String
  | [] => ""
  | [(k, v)] => "'" ++ k ++ "': " ++ pyRepr v
  | (k, v) :: xs => "'" ++ k ++ "': " ++ pyRepr v ++ ", " ++ pyReprKVs xs

end

/-- Python `str` of a JSON-decoded value, as used by f-string interpolation:
identical to `repr` except a top-level string prints without quotes. -/
def pyStr : Json → String
  | Json.str s => s
  | j => pyRepr j

/-- Python `str` of an `Optional` value (`dict.get` result): `None` prints as
`None`. -/
def pyStrOpt : Option Json → String
  | none => "None"
  | some j => pyStr j

/-- A tool descriptor from the catalog returned by `session.list_tools()`.
`inputSchema` is the JSON schema dict advertised by the server. -/
structure Tool where
  name : String
  description : String
  inputSchema : Json

/-- Python `repr` of a list of strings, as f-string interpolation renders
`tool_names` in the router prompt. -/
def pyReprStrList : List String → String
  | names => "[" ++ String.intercalate ", " (names.map (fun n => "'" ++ n ++ "'")) ++ "]"

/-- `get_router_prompt` (bmiclient.py lines 31-41), rendered exactly as the
Python string literals concatenate. -/
def get_router_prompt (query : String) (tools : List Tool) : String :=
  "You are a smart router that decides whether a user's question should call a tool.\n\n" ++
  "Available tools: " ++ pyReprStrList (tools.map Tool.name) ++ "\n\n" ++
  "User question: " ++ query ++ "\n\n" ++
  "If the question requires one of these tools, respond ONLY with this JSON:\n" ++
  "\x7b \"use_tool\": true \x7d\n\n" ++
  "If no tool is needed, respond ONLY with this JSON:\n" ++
  "\x7b \"use_tool\": false \x7d\n"

/-- `get_tool_selection_prompt` (bmiclient.py lines 44-60). -/
def get_tool_selection_prompt (query : String) (tools : List Tool) : String :=
  "You are a helpful assistant. You can call the following tools:\n\n" ++
  String.intercalate "\n"
    (tools.map (fun t => "- " ++ t.name ++ ": " ++ t.description ++ ", " ++ pyStr t.inputSchema)) ++
  "\n\n" ++
  "User query: " ++ query ++ "\n\n" ++
  "IMPORTANT: When you need to use a tool, respond ONLY with the exact JSON object below and nothing else:\n" ++
  "\x7b\n  \"tool\": \"tool-name\",\n  \"arguments\": \x7b\n    \"arg1\": \"value\",\n    \"arg2\": \"value\"\n  \x7d\n\x7d"

/-- `is_valid_tool_call` (bmiclient.py lines 63-76).  `loads` is the abstract
`json.loads`; `none` models the caught `json.JSONDecodeError`.  The membership
test mirrors `parsed["tool"] not in [tool.name for tool in tools]`: a
non-string value compares unequal to every name. -/
def is_valid_tool_call (loads : String → Option Json) (response : String)
    (tools : List Tool) : Bool :=
  match loads response with
  | none => false
  | some parsed =>
    match parsed with
    | Json.obj kvs =>
      match jsonGet kvs "tool", jsonGet kvs "arguments" with
      | some tv, some av =>
        (match tv with
         | Json.str s => (tools.map Tool.name).contains s
         | _ => false)
        &&
        (match av with
         | Json.obj _ => true
         | _ => false)
      | _, _ => false
    | _ => false

/-- Result of `session.call_tool`: the content list, one entry per text part
(`result.content[i].text`). -/
structure ToolResult where
  content : List String

/-- The external collaborators of the session loop.  `llm` models
`llm_client` (one completion call; `Except.error` is a raised exception
carrying its message), `callTool` models `session.call_tool`, and `loads`
models the standard-library `json.loads` (a fixed, deterministic strict
parser; `none` models a raised `json.JSONDecodeError`). -/
structure Env where
  llm : String → Except String String
  callTool : String → List (String × Json) → Except String ToolResult
  loads : String → Option Json

/-- An observable action of one session: an outbound completion-gateway call
with its prompt, a dispatch (tool invocation) with its name and arguments, or
a printed line. -/
inductive Event where
  | gatewayCall : String → Event
  | dispatchCall : String → List (String × Json) → Event
  | printed : String → Event

/-- How a single turn of the `while True` loop ends: `exit` models `break`,
`idle` models `continue` / falling through to the next iteration, and
`crash` models an exception propagating out of the loop body uncaught. -/
inductive TurnOutcome where
  | exit : TurnOutcome
  | idle : TurnOutcome
  | crash : String → TurnOutcome
  deriving DecidableEq

def fallbackNotice : String :=
  "Invalid router response. Falling back to direct LLM answer."

def directHeader : String := "\n💬 Direct answer from LLM:"

def invalidToolCallNotice : String := "❌ Invalid tool call response from LLM."

def toolFailedNotice (e : String) : String := "❌ Tool execution failed: " ++ e

/-- The success message printed after a tool call (bmiclient.py lines
119-124): it interpolates `arguments.get("weight_kg")`,
`arguments.get("height_m")` and `result.content[0].text`. -/
def toolResultMessage (args : List (String × Json)) (text : String) : String :=
  "\n✅ Tool Result:\nBMI for weight " ++ pyStrOpt (jsonGet args "weight_kg") ++
  "kg and height " ++ pyStrOpt (jsonGet args "height_m") ++ "m is:\n" ++ text

def exitWords : List String := ["exit", "quit"]

/-- Python `str.strip()` with no argument: remove leading and trailing
whitespace.  Defined over the character list so that it evaluates by kernel
reduction. -/
def pyStrip (s : String) : String :=
  String.mk (List.reverse (List.dropWhile Char.isWhitespace
    (List.reverse (List.dropWhile Char.isWhitespace s.data))))

/-- Python `str.lower()` on ASCII input, defined over the character list. -/
def pyLower (s : String) : String := String.mk (s.data.map Char.toLower)

/-- One iteration of the `while True` body (bmiclient.py lines 89-132) on a
raw input line.  Line 90 strips the line before the exit-keyword test.  Call
sites the Python code leaves outside any `try` (`llm_client`, and
`route_decision.get` on a non-dict value) crash on failure; the `try` around
`json.loads(route_response)` catches exactly `JSONDecodeError`, and the `try`
around the tool call and its result printing catches every exception,
including the `IndexError` when `result.content` is empty. -/
def runTurn (env : Env) (tools : List Tool) (line : String) :
    List Event × TurnOutcome :=
  let query := pyStrip line
  if exitWords.contains (pyLower query) then
    ([Event.printed "Goodbye!"], TurnOutcome.exit)
  else
    let route_prompt := get_router_prompt query tools
    match env.llm route_prompt with
    | Except.error e => ([Event.gatewayCall route_prompt], TurnOutcome.crash e)
    | Except.ok route_response =>
      match env.loads route_response with
      | none =>
        match env.llm query with
        | Except.error e =>
          ([Event.gatewayCall route_prompt, Event.printed fallbackNotice,
            Event.gatewayCall query], TurnOutcome.crash e)
        | Except.ok ans =>
          ([Event.gatewayCall route_prompt, Event.printed fallbackNotice,
            Event.gatewayCall query, Event.printed ans], TurnOutcome.idle)
      | some (Json.obj kvs) =>
        match jsonGet kvs "use_tool" with
        | some (Json.bool true) =>
          let prompt := get_tool_selection_prompt query tools
          match env.llm prompt with
          | Except.error e =>
            ([Event.gatewayCall route_prompt, Event.gatewayCall prompt],
             TurnOutcome.crash e)
          | Except.ok tool_response =>
            if is_valid_tool_call env.loads tool_response tools then
              match env.loads tool_response with
              | some (Json.obj tkvs) =>
                match jsonGet tkvs "tool", jsonGet tkvs "arguments" with
                | some (Json.str name), some (Json.obj args) =>
                  match env.callTool name args with
                  | Except.error e =>
                    ([Event.gatewayCall route_prompt, Event.gatewayCall prompt,
                      Event.dispatchCall name args,
                      Event.printed (toolFailedNotice e)], TurnOutcome.idle)
                  | Except.ok result =>
                    match result.content with
                    | [] =>
                      ([Event.gatewayCall route_prompt, Event.gatewayCall prompt,
                        Event.dispatchCall name args,
                        Event.printed (toolFailedNotice "list index out of range")],
                       TurnOutcome.idle)
                    | t :: _ =>
                      ([Event.gatewayCall route_prompt, Event.gatewayCall prompt,
                        Event.dispatchCall name args,
                        Event.printed (toolResultMessage args t)], TurnOutcome.idle)
                | _, _ =>
                  ([Event.gatewayCall route_prompt, Event.gatewayCall prompt],
                   TurnOutcome.crash "unreachable")
              | _ =>
                ([Event.gatewayCall route_prompt, Event.gatewayCall prompt],
                 TurnOutcome.crash "unreachable")
            else
              ([Event.gatewayCall route_prompt, Event.gatewayCall prompt,
                Event.printed invalidToolCallNotice], TurnOutcome.idle)
        | _ =>
          match env.llm query with
          | Except.error e =>
            ([Event.gatewayCall route_prompt, Event.printed directHeader,
              Event.gatewayCall query], TurnOutcome.crash e)
          | Except.ok ans =>
            ([Event.gatewayCall route_prompt, Event.printed directHeader,
              Event.gatewayCall query, Event.printed ans], TurnOutcome.idle)
      | some j =>
        ([Event.gatewayCall route_prompt],
         TurnOutcome.crash
           ("AttributeError: '" ++ pyTypeName j ++ "' object has no attribute 'get'"))

/-- How a whole session ends: the user typed an exit keyword (`break`), the
input stream ran dry (Python `input()` raises `EOFError`, uncaught), or an
exception propagated out of the loop. -/
inductive SessionEnd where
  | exited : SessionEnd
  | crashed : String → SessionEnd
  deriving DecidableEq

/-- The `while True` loop over the successive input lines. -/
def runLoop (env : Env) (tools : List Tool) : List String → List Event × SessionEnd
  | [] => ([], SessionEnd.crashed "EOFError")
  | line :: rest =>
    match runTurn env tools line with
    | (evs, TurnOutcome.exit) => (evs, SessionEnd.exited)
    | (evs, TurnOutcome.crash e) => (evs, SessionEnd.crashed e)
    | (evs, TurnOutcome.idle) =>
      let r := runLoop env tools rest
      (evs ++ r.1, r.2)

def greetingPrompt : String :=
  "Greet the user briefly and let them know they can ask any question."

/-- The body of `run` after the catalog is fetched (bmiclient.py lines
85-132): one greeting completion call, printed, then the loop.  The greeting
call is not wrapped in any `try`, so its failure crashes the session before
any input line is read. -/
def run (env : Env) (tools : List Tool) (inputs : List String) :
    List Event × SessionEnd :=
  match env.llm greetingPrompt with
  | Except.error e => ([Event.gatewayCall greetingPrompt], SessionEnd.crashed e)
  | Except.ok greeting =>
    let r := runLoop env tools inputs
    (Event.gatewayCall greetingPrompt :: Event.printed greeting :: r.1, r.2)

/-- Recognizer for dispatch events. -/
def Event.isDispatch : Event → Bool
  | Event.dispatchCall _ _ => true
  | _ => false

/-- Recognizer for completion-gateway events. -/
def Event.isGateway : Event → Bool
  | Event.gatewayCall _ => true
  | _ => false

/-- The catalog of Scenario A: one `bmi` tool. -/
def wTools : List Tool :=
  [{ name := "bmi", description := "computes BMI",
     inputSchema := Json.obj [("weight_kg", Json.str "number"),
                              ("height_m", Json.str "number")] }]

/-- A parsed object that is simultaneously a route decision selecting the
tool path and a valid tool call for `wTools`. -/
def comboKvs : List (String × Json) :=
  [("use_tool", Json.bool true), ("tool", Json.str "bmi"),
   ("arguments", Json.obj [])]

def comboObj : Json := Json.obj comboKvs

/-- Environment whose completions all parse to `comboObj` and whose tool
calls succeed. -/
def envToolOk : Env :=
  { llm := fun _ => Except.ok "X",
    callTool := fun _ _ => Except.ok ⟨["result text"]⟩,
    loads := fun _ => some comboObj }

/-- Environment whose completions all parse to `comboObj` and whose tool
calls raise. -/
def envToolFail : Env :=
  { llm := fun _ => Except.ok "X",
    callTool := fun _ _ => Except.error "boom",
    loads := fun _ => some comboObj }

/-- Environment whose route decisions parse to an object with
`use_tool = false`. -/
def envDirect : Env :=
  { llm := fun _ => Except.ok "X",
    callTool := fun _ _ => Except.ok ⟨["result text"]⟩,
    loads := fun _ => some (Json.obj [("use_tool", Json.bool false)]) }

/-- Environment whose completions never parse as JSON. -/
def envParseFail : Env :=
  { llm := fun _ => Except.ok "X",
    callTool := fun _ _ => Except.ok ⟨["result text"]⟩,
    loads := fun _ => none }

/-- Environment whose route decisions parse to an object whose `use_tool`
value is the number `1`, a truthy non-boolean. -/
def envNonBool : Env :=
  { llm := fun _ => Except.ok "X",
    callTool := fun _ _ => Except.ok ⟨["result text"]⟩,
    loads := fun _ => some (Json.obj [("use_tool", Json.num 1)]) }

/-- Environment whose completions parse to a JSON array. -/
def envArr : Env :=
  { llm := fun _ => Except.ok "X",
    callTool := fun _ _ => Except.ok ⟨["result text"]⟩,
    loads := fun _ => some (Json.arr []) }

/-- Environment whose completion service is down. -/
def envGatewayDown : Env :=
  { llm := fun _ => Except.error "connection error",
    callTool := fun _ _ => Except.ok ⟨["result text"]⟩,
    loads := fun _ => none }

section BranchEquations

/-- Exit branch: a stripped line matching an exit keyword case-insensitively
prints the farewell and breaks. -/
theorem runTurn_exit_eq (env : Env) (tools : List Tool) (line : String)
    (h : exitWords.contains (pyLower (pyStrip line)) = true) :
    runTurn env tools line = ([Event.printed "Goodbye!"], TurnOutcome.exit) := by
  unfold runTurn
  simp only [h, if_true]

/-- Route-parse-failure branch: decode error on the route response prints the
fallback notice and answers directly. -/
theorem runTurn_fallback_eq (env : Env) (tools : List Tool) (line : String)
    (r ans : String)
    (hx : exitWords.contains (pyLower (pyStrip line)) = false)
    (hr : env.llm (get_router_prompt (pyStrip line) tools) = Except.ok r)
    (hl : env.loads r = none)
    (ha : env.llm (pyStrip line) = Except.ok ans) :
    runTurn env tools line =
      ([Event.gatewayCall (get_router_prompt (pyStrip line) tools),
        Event.printed fallbackNotice,
        Event.gatewayCall (pyStrip line), Event.printed ans],
       TurnOutcome.idle) := by
  unfold runTurn
  simp only [hx, Bool.false_eq_true, if_false, hr, hl, ha]

/-- Non-object route decision: `route_decision.get("use_tool")` raises
`AttributeError`, which nothing catches. -/
theorem runTurn_nonobj_crash (env : Env) (tools : List Tool) (line : String)
    (r : String) (j : Json)
    (hx : exitWords.contains (pyLower (pyStrip line)) = false)
    (hr : env.llm (get_router_prompt (pyStrip line) tools) = Except.ok r)
    (hl : env.loads r = some j)
    (hj : ∀ kvs, j ≠ Json.obj kvs) :
    runTurn env tools line =
      ([Event.gatewayCall (get_router_prompt (pyStrip line) tools)],
       TurnOutcome.crash
         ("AttributeError: '" ++ pyTypeName j ++ "' object has no attribute 'get'")) := by
  unfold runTurn
  simp only [hx, Bool.false_eq_true, if_false, hr, hl]

/-- Direct-answer branch: a route object whose `use_tool` value is anything
but the boolean `true` prints the direct-answer header and one completion. -/
theorem runTurn_direct_eq (env : Env) (tools : List Tool) (line : String)
    (r ans : String) (kvs : List (String × Json)) (v : Option Json)
    (hx : exitWords.contains (pyLower (pyStrip line)) = false)
    (hr : env.llm (get_router_prompt (pyStrip line) tools) = Except.ok r)
    (hl : env.loads r = some (Json.obj kvs))
    (hu : jsonGet kvs "use_tool" = v)
    (hv : v ≠ some (Json.bool true))
    (ha : env.llm (pyStrip line) = Except.ok ans) :
    runTurn env tools line =
      ([Event.gatewayCall (get_router_prompt (pyStrip line) tools),
        Event.printed directHeader,
        Event.gatewayCall (pyStrip line), Event.printed ans],
       TurnOutcome.idle) := by
  unfold runTurn
  simp only [hx, Bool.false_eq_true, if_false, hr, hl, hu]
  rcases v with _ | j
  · simp only [ha]
  · rcases j with _ | b | n | s | xs | kvs2
    · simp only [ha]
    · rcases b with _ | _
      · simp only [ha]
      · exact absurd rfl hv
    · simp only [ha]
    · simp only [ha]
    · simp only [ha]
    · simp only [ha]

/-- Invalid-tool-call branch: a rejected selection response prints the
invalid-tool-call notice and continues. -/
theorem runTurn_invalid_eq (env : Env) (tools : List Tool) (line : String)
    (r resp : String) (kvs : List (String × Json))
    (hx : exitWords.contains (pyLower (pyStrip line)) = false)
    (hr : env.llm (get_router_prompt (pyStrip line) tools) = Except.ok r)
    (hl : env.loads r = some (Json.obj kvs))
    (hu : jsonGet kvs "use_tool" = some (Json.bool true))
    (hresp : env.llm (get_tool_selection_prompt (pyStrip line) tools) = Except.ok resp)
    (hval : is_valid_tool_call env.loads resp tools = false) :
    runTurn env tools line =
      ([Event.gatewayCall (get_router_prompt (pyStrip line) tools),
        Event.gatewayCall (get_tool_selection_prompt (pyStrip line) tools),
        Event.printed invalidToolCallNotice], TurnOutcome.idle) := by
  unfold runTurn
  simp only [hx, Bool.false_eq_true, if_false, hr, hl, hu, hresp, hval]

/-- Tool-failure branch: a raised tool invocation is caught and reported. -/
theorem runTurn_toolfail_eq (env : Env) (tools : List Tool) (line : String)
    (r resp e : String) (kvs tkvs args : List (String × Json)) (name : String)
    (hx : exitWords.contains (pyLower (pyStrip line)) = false)
    (hr : env.llm (get_router_prompt (pyStrip line) tools) = Except.ok r)
    (hl : env.loads r = some (Json.obj kvs))
    (hu : jsonGet kvs "use_tool" = some (Json.bool true))
    (hresp : env.llm (get_tool_selection_prompt (pyStrip line) tools) = Except.ok resp)
    (hval : is_valid_tool_call env.loads resp tools = true)
    (hlo : env.loads resp = some (Json.obj tkvs))
    (hname : jsonGet tkvs "tool" = some (Json.str name))
    (hargs : jsonGet tkvs "arguments" = some (Json.obj args))
    (hct : env.callTool name args = Except.error e) :
    runTurn env tools line =
      ([Event.gatewayCall (get_router_prompt (pyStrip line) tools),
        Event.gatewayCall (get_tool_selection_prompt (pyStrip line) tools),
        Event.dispatchCall name args,
        Event.printed (toolFailedNotice e)], TurnOutcome.idle) := by
  unfold runTurn
  simp only [hx, Bool.false_eq_true, if_false, hr, hl, hu, hresp, hval, if_true,
    hlo, hname, hargs, hct]

/-- Tool-success branch with a nonempty content list. -/
theorem runTurn_toolok_eq (env : Env) (tools : List Tool) (line : String)
    (r resp : String) (kvs tkvs args : List (String × Json)) (name : String)
    (t : String) (rest : List String)
    (hx : exitWords.contains (pyLower (pyStrip line)) = false)
    (hr : env.llm (get_router_prompt (pyStrip line) tools) = Except.ok r)
    (hl : env.loads r = some (Json.obj kvs))
    (hu : jsonGet kvs "use_tool" = some (Json.bool true))
    (hresp : env.llm (get_tool_selection_prompt (pyStrip line) tools) = Except.ok resp)
    (hval : is_valid_tool_call env.loads resp tools = true)
    (hlo : env.loads resp = some (Json.obj tkvs))
    (hname : jsonGet tkvs "tool" = some (Json.str name))
    (hargs : jsonGet tkvs "arguments" = some (Json.obj args))
    (hct : env.callTool name args = Except.ok ⟨t :: rest⟩) :
    runTurn env tools line =
      ([Event.gatewayCall (get_router_prompt (pyStrip line) tools),
        Event.gatewayCall (get_tool_selection_prompt (pyStrip line) tools),
        Event.dispatchCall name args,
        Event.printed (toolResultMessage args t)], TurnOutcome.idle) := by
  unfold runTurn
  simp only [hx, Bool.false_eq_true, if_false, hr, hl, hu, hresp, hval, if_true,
    hlo, hname, hargs, hct]

/-- Tool-success branch with an empty content list: `result.content[0]`
raises `IndexError` inside the `try`, so it is caught and reported. -/
theorem runTurn_toolok_empty_eq (env : Env) (tools : List Tool) (line : String)
    (r resp : String) (kvs tkvs args : List (String × Json)) (name : String)
    (hx : exitWords.contains (pyLower (pyStrip line)) = false)
    (hr : env.llm (get_router_prompt (pyStrip line) tools) = Except.ok r)
    (hl : env.loads r = some (Json.obj kvs))
    (hu : jsonGet kvs "use_tool" = some (Json.bool true))
    (hresp : env.llm (get_tool_selection_prompt (pyStrip line) tools) = Except.ok resp)
    (hval : is_valid_tool_call env.loads resp tools = true)
    (hlo : env.loads resp = some (Json.obj tkvs))
    (hname : jsonGet tkvs "tool" = some (Json.str name))
    (hargs : jsonGet tkvs "arguments" = some (Json.obj args))
    (hct : env.callTool name args = Except.ok ⟨[]⟩) :
    runTurn env tools line =
      ([Event.gatewayCall (get_router_prompt (pyStrip line) tools),
        Event.gatewayCall (get_tool_selection_prompt (pyStrip line) tools),
        Event.dispatchCall name args,
        Event.printed (toolFailedNotice "list index out of range")], TurnOutcome.idle) := by
  unfold runTurn
  simp only [hx, Bool.false_eq_true, if_false, hr, hl, hu, hresp, hval, if_true,
    hlo, hname, hargs, hct]

/-- Router gateway failure: `llm_client` raises outside any `try`. -/
theorem runTurn_routererr_crash (env : Env) (tools : List Tool) (line : String)
    (e : String)
    (hx : exitWords.contains (pyLower (pyStrip line)) = false)
    (hr : env.llm (get_router_prompt (pyStrip line) tools) = Except.error e) :
    runTurn env tools line =
      ([Event.gatewayCall (get_router_prompt (pyStrip line) tools)],
       TurnOutcome.crash e) := by
  unfold runTurn
  simp only [hx, Bool.false_eq_true, if_false, hr]

/-- Gateway failure on the fallback direct answer. -/
theorem runTurn_fallback_crash (env : Env) (tools : List Tool) (line : String)
    (r e : String)
    (hx : exitWords.contains (pyLower (pyStrip line)) = false)
    (hr : env.llm (get_router_prompt (pyStrip line) tools) = Except.ok r)
    (hl : env.loads r = none)
    (ha : env.llm (pyStrip line) = Except.error e) :
    runTurn env tools line =
      ([Event.gatewayCall (get_router_prompt (pyStrip line) tools),
        Event.printed fallbackNotice,
        Event.gatewayCall (pyStrip line)], TurnOutcome.crash e) := by
  unfold runTurn
  simp only [hx, Bool.false_eq_true, if_false, hr, hl, ha]

/-- Gateway failure on the direct answer. -/
theorem runTurn_direct_crash (env : Env) (tools : List Tool) (line : String)
    (r e : String) (kvs : List (String × Json)) (v : Option Json)
    (hx : exitWords.contains (pyLower (pyStrip line)) = false)
    (hr : env.llm (get_router_prompt (pyStrip line) tools) = Except.ok r)
    (hl : env.loads r = some (Json.obj kvs))
    (hu : jsonGet kvs "use_tool" = v)
    (hv : v ≠ some (Json.bool true))
    (ha : env.llm (pyStrip line) = Except.error e) :
    runTurn env tools line =
      ([Event.gatewayCall (get_router_prompt (pyStrip line) tools),
        Event.printed directHeader,
        Event.gatewayCall (pyStrip line)], TurnOutcome.crash e) := by
  unfold runTurn
  simp only [hx, Bool.false_eq_true, if_false, hr, hl, hu]
  rcases v with _ | j
  · simp only [ha]
  · rcases j with _ | b | n | s | xs | kvs2
    · simp only [ha]
    · rcases b with _ | _
      · simp only [ha]
      · exact absurd rfl hv
    · simp only [ha]
    · simp only [ha]
    · simp only [ha]
    · simp only [ha]

/-- Gateway failure on the selection call. -/
theorem runTurn_selerr_crash (env : Env) (tools : List Tool) (line : String)
    (r e : String) (kvs : List (String × Json))
    (hx : exitWords.contains (pyLower (pyStrip line)) = false)
    (hr : env.llm (get_router_prompt (pyStrip line) tools) = Except.ok r)
    (hl : env.loads r = some (Json.obj kvs))
    (hu : jsonGet kvs "use_tool" = some (Json.bool true))
    (hresp : env.llm (get_tool_selection_prompt (pyStrip line) tools) = Except.error e) :
    runTurn env tools line =
      ([Event.gatewayCall (get_router_prompt (pyStrip line) tools),
        Event.gatewayCall (get_tool_selection_prompt (pyStrip line) tools)],
       TurnOutcome.crash e) := by
  unfold runTurn
  simp only [hx, Bool.false_eq_true, if_false, hr, hl, hu, hresp]

end BranchEquations

/-- Shape lemma for the validator: acceptance is equivalent to the response
parsing to an object that names a catalog tool under `tool` and carries an
object under `arguments`. -/
theorem is_valid_tool_call_spec (loads : String → Option Json) (resp : String)
    (tools : List Tool) :
    is_valid_tool_call loads resp tools = true ↔
      ∃ kvs s args,
        loads resp = some (Json.obj kvs) ∧
        jsonGet kvs "tool" = some (Json.str s) ∧
        s ∈ tools.map Tool.name ∧
        jsonGet kvs "arguments" = some (Json.obj args) := by
  constructor
  · intro h
    unfold is_valid_tool_call at h
    split at h
    · exact absurd h Bool.false_ne_true
    next parsed hl =>
      split at h
      next kvs =>
        split at h
        next tv av hjt hja =>
          rw [Bool.and_eq_true] at h
          obtain ⟨h1, h2⟩ := h
          split at h1
          next s =>
            split at h2
            next args =>
              exact ⟨kvs, s, args, hl, hjt, List.elem_iff.mp h1, hja⟩
            · exact absurd h2 Bool.false_ne_true
          · exact absurd h1 Bool.false_ne_true
        · exact absurd h Bool.false_ne_true
      all_goals exact absurd h Bool.false_ne_true
  · rintro ⟨kvs, s, args, hl, hjt, hs, hja⟩
    unfold is_valid_tool_call
    rw [hl]
    simp only [hjt, hja]
    simpa using List.elem_iff.mpr hs

/-- Exhaustive case analysis of one loop iteration: the twelve leaves of the
control flow, each with the oracle facts that select it and the exact trace. -/
theorem runTurn_cases (env : Env) (tools : List Tool) (line : String) :
    (exitWords.contains (pyLower (pyStrip line)) = true ∧
      runTurn env tools line = ([Event.printed "Goodbye!"], TurnOutcome.exit)) ∨
    (∃ e, exitWords.contains (pyLower (pyStrip line)) = false ∧
      env.llm (get_router_prompt (pyStrip line) tools) = Except.error e ∧
      runTurn env tools line =
        ([Event.gatewayCall (get_router_prompt (pyStrip line) tools)],
         TurnOutcome.crash e)) ∨
    (∃ r e, exitWords.contains (pyLower (pyStrip line)) = false ∧
      env.llm (get_router_prompt (pyStrip line) tools) = Except.ok r ∧
      env.loads r = none ∧ env.llm (pyStrip line) = Except.error e ∧
      runTurn env tools line =
        ([Event.gatewayCall (get_router_prompt (pyStrip line) tools),
          Event.printed fallbackNotice, Event.gatewayCall (pyStrip line)],
         TurnOutcome.crash e)) ∨
    (∃ r ans, exitWords.contains (pyLower (pyStrip line)) = false ∧
      env.llm (get_router_prompt (pyStrip line) tools) = Except.ok r ∧
      env.loads r = none ∧ env.llm (pyStrip line) = Except.ok ans ∧
      runTurn env tools line =
        ([Event.gatewayCall (get_router_prompt (pyStrip line) tools),
          Event.printed fallbackNotice, Event.gatewayCall (pyStrip line),
          Event.printed ans], TurnOutcome.idle)) ∨
    (∃ r j, exitWords.contains (pyLower (pyStrip line)) = false ∧
      env.llm (get_router_prompt (pyStrip line) tools) = Except.ok r ∧
      env.loads r = some j ∧ (∀ kvs, j ≠ Json.obj kvs) ∧
      runTurn env tools line =
        ([Event.gatewayCall (get_router_prompt (pyStrip line) tools)],
         TurnOutcome.crash
           ("AttributeError: '" ++ pyTypeName j ++ "' object has no attribute 'get'"))) ∨
    (∃ r kvs v e, exitWords.contains (pyLower (pyStrip line)) = false ∧
      env.llm (get_router_prompt (pyStrip line) tools) = Except.ok r ∧
      env.loads r = some (Json.obj kvs) ∧ jsonGet kvs "use_tool" = v ∧
      v ≠ some (Json.bool true) ∧ env.llm (pyStrip line) = Except.error e ∧
      runTurn env tools line =
        ([Event.gatewayCall (get_router_prompt (pyStrip line) tools),
          Event.printed directHeader, Event.gatewayCall (pyStrip line)],
         TurnOutcome.crash e)) ∨
    (∃ r kvs v ans, exitWords.contains (pyLower (pyStrip line)) = false ∧
      env.llm (get_router_prompt (pyStrip line) tools) = Except.ok r ∧
      env.loads r = some (Json.obj kvs) ∧ jsonGet kvs "use_tool" = v ∧
      v ≠ some (Json.bool true) ∧ env.llm (pyStrip line) = Except.ok ans ∧
      runTurn env tools line =
        ([Event.gatewayCall (get_router_prompt (pyStrip line) tools),
          Event.printed directHeader, Event.gatewayCall (pyStrip line),
          Event.printed ans], TurnOutcome.idle)) ∨
    (∃ r kvs e, exitWords.contains (pyLower (pyStrip line)) = false ∧
      env.llm (get_router_prompt (pyStrip line) tools) = Except.ok r ∧
      env.loads r = some (Json.obj kvs) ∧
      jsonGet kvs "use_tool" = some (Json.bool true) ∧
      env.llm (get_tool_selection_prompt (pyStrip line) tools) = Except.error e ∧
      runTurn env tools line =
        ([Event.gatewayCall (get_router_prompt (pyStrip line) tools),
          Event.gatewayCall (get_tool_selection_prompt (pyStrip line) tools)],
         TurnOutcome.crash e)) ∨
    (∃ r kvs resp, exitWords.contains (pyLower (pyStrip line)) = false ∧
      env.llm (get_router_prompt (pyStrip line) tools) = Except.ok r ∧
      env.loads r = some (Json.obj kvs) ∧
      jsonGet kvs "use_tool" = some (Json.bool true) ∧
      env.llm (get_tool_selection_prompt (pyStrip line) tools) = Except.ok resp ∧
      is_valid_tool_call env.loads resp tools = false ∧
      runTurn env tools line =
        ([Event.gatewayCall (get_router_prompt (pyStrip line) tools),
          Event.gatewayCall (get_tool_selection_prompt (pyStrip line) tools),
          Event.printed invalidToolCallNotice], TurnOutcome.idle)) ∨
    (∃ r kvs resp tkvs name args, exitWords.contains (pyLower (pyStrip line)) = false ∧
      env.llm (get_router_prompt (pyStrip line) tools) = Except.ok r ∧
      env.loads r = some (Json.obj kvs) ∧
      jsonGet kvs "use_tool" = some (Json.bool true) ∧
      env.llm (get_tool_selection_prompt (pyStrip line) tools) = Except.ok resp ∧
      is_valid_tool_call env.loads resp tools = true ∧
      env.loads resp = some (Json.obj tkvs) ∧
      jsonGet tkvs "tool" = some (Json.str name) ∧ name ∈ tools.map Tool.name ∧
      jsonGet tkvs "arguments" = some (Json.obj args) ∧
      ((∃ e, env.callTool name args = Except.error e ∧
        runTurn env tools line =
          ([Event.gatewayCall (get_router_prompt (pyStrip line) tools),
            Event.gatewayCall (get_tool_selection_prompt (pyStrip line) tools),
            Event.dispatchCall name args,
            Event.printed (toolFailedNotice e)], TurnOutcome.idle)) ∨
       (env.callTool name args = Except.ok ⟨[]⟩ ∧
        runTurn env tools line =
          ([Event.gatewayCall (get_router_prompt (pyStrip line) tools),
            Event.gatewayCall (get_tool_selection_prompt (pyStrip line) tools),
            Event.dispatchCall name args,
            Event.printed (toolFailedNotice "list index out of range")], TurnOutcome.idle)) ∨
       (∃ t ts, env.callTool name args = Except.ok ⟨t :: ts⟩ ∧
        runTurn env tools line =
          ([Event.gatewayCall (get_router_prompt (pyStrip line) tools),
            Event.gatewayCall (get_tool_selection_prompt (pyStrip line) tools),
            Event.dispatchCall name args,
            Event.printed (toolResultMessage args t)], TurnOutcome.idle)))) := by
  by_cases hx : exitWords.contains (pyLower (pyStrip line)) = true
  · exact Or.inl ⟨hx, runTurn_exit_eq env tools line hx⟩
  · rw [Bool.not_eq_true] at hx
    rcases hr : env.llm (get_router_prompt (pyStrip line) tools) with e | r
    · exact Or.inr (Or.inl ⟨e, hx, rfl, runTurn_routererr_crash env tools line e hx hr⟩)
    rcases hl : env.loads r with _ | j
    · rcases ha : env.llm (pyStrip line) with e | ans
      · exact Or.inr (Or.inr (Or.inl ⟨r, e, hx, rfl, hl, rfl,
          runTurn_fallback_crash env tools line r e hx hr hl ha⟩))
      · exact Or.inr (Or.inr (Or.inr (Or.inl ⟨r, ans, hx, rfl, hl, rfl,
          runTurn_fallback_eq env tools line r ans hx hr hl ha⟩)))
    by_cases hobj : ∃ kvs, j = Json.obj kvs
    case neg =>
      push_neg at hobj
      exact Or.inr (Or.inr (Or.inr (Or.inr (Or.inl ⟨r, j, hx, rfl, hl, hobj,
        runTurn_nonobj_crash env tools line r j hx hr hl hobj⟩))))
    case pos =>
    obtain ⟨kvs, rfl⟩ := hobj
    by_cases hvt : jsonGet kvs "use_tool" = some (Json.bool true)
    case neg =>
      rcases ha : env.llm (pyStrip line) with e | ans
      · exact Or.inr (Or.inr (Or.inr (Or.inr (Or.inr (Or.inl
          ⟨r, kvs, _, e, hx, rfl, hl, rfl, hvt, rfl,
           runTurn_direct_crash env tools line r e kvs _ hx hr hl rfl hvt ha⟩)))))
      · exact Or.inr (Or.inr (Or.inr (Or.inr (Or.inr (Or.inr (Or.inl
          ⟨r, kvs, _, ans, hx, rfl, hl, rfl, hvt, rfl,
           runTurn_direct_eq env tools line r ans kvs _ hx hr hl rfl hvt ha⟩))))))
    case pos =>
    rcases hresp : env.llm (get_tool_selection_prompt (pyStrip line) tools) with e | resp
    · exact Or.inr (Or.inr (Or.inr (Or.inr (Or.inr (Or.inr (Or.inr (Or.inl
        ⟨r, kvs, e, hx, rfl, hl, hvt, rfl,
         runTurn_selerr_crash env tools line r e kvs hx hr hl hvt hresp⟩)))))))
    by_cases hval : is_valid_tool_call env.loads resp tools = true
    case neg =>
      rw [Bool.not_eq_true] at hval
      exact Or.inr (Or.inr (Or.inr (Or.inr (Or.inr (Or.inr (Or.inr (Or.inr (Or.inl
        ⟨r, kvs, resp, hx, rfl, hl, hvt, rfl, hval,
         runTurn_invalid_eq env tools line r resp kvs hx hr hl hvt hresp hval⟩))))))))
    case pos =>
    obtain ⟨tkvs, nm, ags, hlo, hjt, hnm, hja⟩ :=
      (is_valid_tool_call_spec env.loads resp tools).mp hval
    refine Or.inr (Or.inr (Or.inr (Or.inr (Or.inr (Or.inr (Or.inr (Or.inr (Or.inr
      ⟨r, kvs, resp, tkvs, nm, ags, hx, rfl, hl, hvt, rfl, hval, hlo, hjt, hnm, hja, ?_⟩))))))))
    rcases hct : env.callTool nm ags with e | result
    · exact Or.inl ⟨e, rfl,
        runTurn_toolfail_eq env tools line r resp e kvs tkvs ags nm
          hx hr hl hvt hresp hval hlo hjt hja hct⟩
    rcases result with ⟨content⟩
    rcases content with _ | ⟨t, ts⟩
    · exact Or.inr (Or.inl ⟨rfl,
        runTurn_toolok_empty_eq env tools line r resp kvs tkvs ags nm
          hx hr hl hvt hresp hval hlo hjt hja hct⟩)
    · exact Or.inr (Or.inr ⟨t, ts, rfl,
        runTurn_toolok_eq env tools line r resp kvs tkvs ags nm t ts
          hx hr hl hvt hresp hval hlo hjt hja hct⟩)

/-- C1: `is_valid_tool_call` accepts a response if and only if `json.loads`
succeeds on the entire text, the parsed value is an object, the keys `tool`
and `arguments` are both present, the `tool` value equals one of the
catalog's tool names by exact case-sensitive string comparison, and the
`arguments` value is an object; any failed step yields rejection, and in
particular a `tool` value naming no catalog tool is rejected even when the
JSON is well-formed. -/
theorem validate_accepts_iff (loads : String → Option Json) (resp : String)
    (tools : List Tool) :
    is_valid_tool_call loads resp tools = true ↔
      ∃ kvs,
        loads resp = some (Json.obj kvs) ∧
        (jsonGet kvs "tool").isSome ∧
        (jsonGet kvs "arguments").isSome ∧
        (∃ s, jsonGet kvs "tool" = some (Json.str s) ∧ s ∈ tools.map Tool.name) ∧
        (∃ args, jsonGet kvs "arguments" = some (Json.obj args)) := by
  rw [is_valid_tool_call_spec]
  constructor
  · rintro ⟨kvs, s, args, hl, hjt, hs, hja⟩
    exact ⟨kvs, hl, by simp [hjt], by simp [hja], ⟨s, hjt, hs⟩, ⟨args, hja⟩⟩
  · rintro ⟨kvs, hl, _, _, ⟨s, hjt, hs⟩, ⟨args, hja⟩⟩
    exact ⟨kvs, s, args, hl, hjt, hs, hja⟩

/-- Witness for C1: the validator accepts a concrete response parsing to an
object that names the catalog tool `bmi` with object arguments. -/
theorem validate_accepts_iff_witness :
    is_valid_tool_call (fun _ => some comboObj) "X" wTools = true :=
  (validate_accepts_iff (fun _ => some comboObj) "X" wTools).mpr
    ⟨comboKvs, rfl, rfl, rfl, ⟨"bmi", rfl, by decide⟩, ⟨[], rfl⟩⟩

/-- C2: within a turn of the session loop, a dispatch event occurs only for a
selection response the validator accepted, so the dispatched tool name is in
the catalog and the dispatched arguments are the object carried by that
accepted response. -/
theorem dispatch_only_validated (env : Env) (tools : List Tool) (line : String)
    (name : String) (args : List (String × Json))
    (h : Event.dispatchCall name args ∈ (runTurn env tools line).1) :
    name ∈ tools.map Tool.name ∧
    ∃ resp tkvs,
      env.llm (get_tool_selection_prompt (pyStrip line) tools) = Except.ok resp ∧
      is_valid_tool_call env.loads resp tools = true ∧
      env.loads resp = some (Json.obj tkvs) ∧
      jsonGet tkvs "tool" = some (Json.str name) ∧
      jsonGet tkvs "arguments" = some (Json.obj args) := by
  rcases runTurn_cases env tools line with
    ⟨_, ht⟩ | ⟨e, _, _, ht⟩ | ⟨r, e, _, _, _, _, ht⟩ | ⟨r, ans, _, _, _, _, ht⟩ |
    ⟨r, j, _, _, _, _, ht⟩ | ⟨r, kvs, v, e, _, _, _, _, _, _, ht⟩ |
    ⟨r, kvs, v, ans, _, _, _, _, _, _, ht⟩ | ⟨r, kvs, e, _, _, _, _, _, ht⟩ |
    ⟨r, kvs, resp, _, _, _, _, hresp, hval, ht⟩ |
    ⟨r, kvs, resp, tkvs, nm, ags, _, _, _, _, hresp, hval, hlo, hjt, hnm, hja, hrest⟩
  · rw [ht] at h; simp at h
  · rw [ht] at h; simp at h
  · rw [ht] at h; simp at h
  · rw [ht] at h; simp at h
  · rw [ht] at h; simp at h
  · rw [ht] at h; simp at h
  · rw [ht] at h; simp at h
  · rw [ht] at h; simp at h
  · rw [ht] at h; simp at h
  · rcases hrest with ⟨e, hct, ht⟩ | ⟨hct, ht⟩ | ⟨t, ts, hct, ht⟩ <;>
      (rw [ht] at h; simp at h; obtain ⟨rfl, rfl⟩ := h;
       exact ⟨hnm, resp, tkvs, hresp, hval, hlo, hjt, hja⟩)

/-- Witness for C2: a dispatch occurs in `envToolOk` and the theorem yields
the validated-response facts for it. -/
theorem dispatch_only_validated_witness :
    "bmi" ∈ wTools.map Tool.name ∧
    ∃ resp tkvs,
      envToolOk.llm (get_tool_selection_prompt (pyStrip "q") wTools) = Except.ok resp ∧
      is_valid_tool_call envToolOk.loads resp wTools = true ∧
      envToolOk.loads resp = some (Json.obj tkvs) ∧
      jsonGet tkvs "tool" = some (Json.str "bmi") ∧
      jsonGet tkvs "arguments" = some (Json.obj []) :=
  dispatch_only_validated envToolOk wTools "q" "bmi" []
    (List.Mem.tail _ (List.Mem.tail _ (List.Mem.head _)))

/-- C7: a stripped input line matching `exit` or `quit` case-insensitively
makes the turn print the farewell and take the terminal exit transition with
no router, gateway or dispatcher call; any other line proceeds to routing,
its first action being the router gateway call. -/
theorem exit_keyword_behavior (env : Env) (tools : List Tool) (line : String) :
    (exitWords.contains (pyLower (pyStrip line)) = true →
      runTurn env tools line = ([Event.printed "Goodbye!"], TurnOutcome.exit)) ∧
    (exitWords.contains (pyLower (pyStrip line)) = false →
      ∃ rest outcome,
        runTurn env tools line =
          (Event.gatewayCall (get_router_prompt (pyStrip line) tools) :: rest,
           outcome)) := by
  constructor
  · exact runTurn_exit_eq env tools line
  · intro hx
    rcases runTurn_cases env tools line with
      ⟨hx', _⟩ | ⟨e, _, _, ht⟩ | ⟨r, e, _, _, _, _, ht⟩ | ⟨r, ans, _, _, _, _, ht⟩ |
      ⟨r, j, _, _, _, _, ht⟩ | ⟨r, kvs, v, e, _, _, _, _, _, _, ht⟩ |
      ⟨r, kvs, v, ans, _, _, _, _, _, _, ht⟩ | ⟨r, kvs, e, _, _, _, _, _, ht⟩ |
      ⟨r, kvs, resp, _, _, _, _, _, _, ht⟩ |
      ⟨r, kvs, resp, tkvs, nm, ags, _, _, _, _, _, _, _, _, _, _, hrest⟩
    · rw [hx] at hx'; cases hx'
    · exact ⟨_, _, ht⟩
    · exact ⟨_, _, ht⟩
    · exact ⟨_, _, ht⟩
    · exact ⟨_, _, ht⟩
    · exact ⟨_, _, ht⟩
    · exact ⟨_, _, ht⟩
    · exact ⟨_, _, ht⟩
    · exact ⟨_, _, ht⟩
    · rcases hrest with ⟨e, _, ht⟩ | ⟨_, ht⟩ | ⟨t, ts, _, ht⟩ <;> exact ⟨_, _, ht⟩

/-- Witness for C7: the line ` QUIT ` exits; the line `hi` routes. -/
theorem exit_keyword_behavior_witness :
    runTurn envDirect wTools " QUIT " = ([Event.printed "Goodbye!"], TurnOutcome.exit) ∧
    ∃ rest outcome,
      runTurn envDirect wTools "hi" =
        (Event.gatewayCall (get_router_prompt (pyStrip "hi") wTools) :: rest,
         outcome) :=
  ⟨(exit_keyword_behavior envDirect wTools " QUIT ").1 (by decide),
   (exit_keyword_behavior envDirect wTools "hi").2 (by decide)⟩

/-- Counterexample for C3: the route response parses to the JSON object with
`use_tool` equal to the number `1` — so it fails to parse into an object
containing a boolean `use_tool` field — yet the turn prints no fallback
notice: it silently takes the direct-answer path. -/
theorem routing_parse_counterexample :
    envNonBool.loads "X" = some (Json.obj [("use_tool", Json.num 1)]) ∧
    (runTurn envNonBool wTools "q").1 =
      [Event.gatewayCall (get_router_prompt "q" wTools),
       Event.printed directHeader, Event.gatewayCall "q", Event.printed "X"] ∧
    Event.printed fallbackNotice ∉ (runTurn envNonBool wTools "q").1 := by
  have he : (runTurn envNonBool wTools "q").1 =
      [Event.gatewayCall (get_router_prompt "q" wTools),
       Event.printed directHeader, Event.gatewayCall "q", Event.printed "X"] := rfl
  refine ⟨rfl, he, ?_⟩
  rw [he]
  simp [fallbackNotice, directHeader]

/-- C3 amended: only a route response that fails strict JSON parse makes the
loop print the fallback notice and answer that turn directly; a response
that parses to an object whose `use_tool` value is missing or is anything
but the boolean `true` is answered via the direct path without any fallback
notice (and a response parsing to a non-object raises an `AttributeError`
out of the loop, see the C4 correction). -/
theorem routing_fallback_amended (env : Env) (tools : List Tool) (line : String)
    (r : String)
    (hx : exitWords.contains (pyLower (pyStrip line)) = false)
    (hr : env.llm (get_router_prompt (pyStrip line) tools) = Except.ok r) :
    (env.loads r = none → ∀ ans, env.llm (pyStrip line) = Except.ok ans →
      runTurn env tools line =
        ([Event.gatewayCall (get_router_prompt (pyStrip line) tools),
          Event.printed fallbackNotice,
          Event.gatewayCall (pyStrip line), Event.printed ans],
         TurnOutcome.idle)) ∧
    (∀ kvs v, env.loads r = some (Json.obj kvs) → jsonGet kvs "use_tool" = v →
      v ≠ some (Json.bool true) → ∀ ans, env.llm (pyStrip line) = Except.ok ans →
      runTurn env tools line =
        ([Event.gatewayCall (get_router_prompt (pyStrip line) tools),
          Event.printed directHeader,
          Event.gatewayCall (pyStrip line), Event.printed ans],
         TurnOutcome.idle)) := by
  constructor
  · intro hl ans ha
    exact runTurn_fallback_eq env tools line r ans hx hr hl ha
  · intro kvs v hl hu hv ans ha
    exact runTurn_direct_eq env tools line r ans kvs v hx hr hl hu hv ha

/-- Witness for C3 amended: a decode failure prints the fallback notice and
answers directly; a non-boolean `use_tool` answers directly without it. -/
theorem routing_fallback_amended_witness :
    runTurn envParseFail wTools "q" =
      ([Event.gatewayCall (get_router_prompt (pyStrip "q") wTools),
        Event.printed fallbackNotice,
        Event.gatewayCall (pyStrip "q"), Event.printed "X"],
       TurnOutcome.idle) ∧
    runTurn envNonBool wTools "q" =
      ([Event.gatewayCall (get_router_prompt (pyStrip "q") wTools),
        Event.printed directHeader,
        Event.gatewayCall (pyStrip "q"), Event.printed "X"],
       TurnOutcome.idle) :=
  ⟨(routing_fallback_amended envParseFail wTools "q" "X" (by decide) rfl).1
      rfl "X" rfl,
   (routing_fallback_amended envNonBool wTools "q" "X" (by decide) rfl).2
      [("use_tool", Json.num 1)] (some (Json.num 1)) rfl rfl (by simp) "X" rfl⟩

/-- Counterexample for C4: a route response parsing to the JSON array `[]`
makes `route_decision.get("use_tool")` raise an `AttributeError` that
nothing catches, so the turn ends in an unhandled error instead of printing
a notice and returning to the idle state. -/
theorem unhandled_error_counterexample :
    (runTurn envArr wTools "q").2 =
      TurnOutcome.crash "AttributeError: 'list' object has no attribute 'get'" := rfl

/-- C4 amended: a turn raises no unhandled error provided every completion
call succeeds and the route response either fails JSON parse or parses to an
object — decode failures, invalid tool calls and tool-invocation exceptions
all print a notice and return to the idle state; but a completion-service
error, or a route response parsing to a non-object JSON value, propagates
out of the loop. -/
theorem turn_no_unhandled_error (env : Env) (tools : List Tool) (line : String)
    (hllm : ∀ p, ∃ s, env.llm p = Except.ok s)
    (hroute : ∀ r j, env.llm (get_router_prompt (pyStrip line) tools) = Except.ok r →
      env.loads r = some j → ∃ kvs, j = Json.obj kvs) :
    (runTurn env tools line).2 = TurnOutcome.exit ∨
    (runTurn env tools line).2 = TurnOutcome.idle := by
  rcases runTurn_cases env tools line with
    ⟨_, ht⟩ | ⟨e, _, hr, ht⟩ | ⟨r, e, _, hr, hl, ha, ht⟩ | ⟨r, ans, _, _, _, _, ht⟩ |
    ⟨r, j, _, hr, hl, hj, ht⟩ | ⟨r, kvs, v, e, _, hr, hl, hu, hv, ha, ht⟩ |
    ⟨r, kvs, v, ans, _, _, _, _, _, _, ht⟩ | ⟨r, kvs, e, _, hr, hl, hu, hresp, ht⟩ |
    ⟨r, kvs, resp, _, _, _, _, _, _, ht⟩ |
    ⟨r, kvs, resp, tkvs, nm, ags, _, _, _, _, _, _, _, _, _, _, hrest⟩
  · rw [ht]; exact Or.inl rfl
  · obtain ⟨s, hs⟩ := hllm (get_router_prompt (pyStrip line) tools)
    rw [hr] at hs; cases hs
  · obtain ⟨s, hs⟩ := hllm (pyStrip line)
    rw [ha] at hs; cases hs
  · rw [ht]; exact Or.inr rfl
  · obtain ⟨kvs, hkvs⟩ := hroute r j hr hl
    exact absurd hkvs (hj kvs)
  · obtain ⟨s, hs⟩ := hllm (pyStrip line)
    rw [ha] at hs; cases hs
  · rw [ht]; exact Or.inr rfl
  · obtain ⟨s, hs⟩ := hllm (get_tool_selection_prompt (pyStrip line) tools)
    rw [hresp] at hs; cases hs
  · rw [ht]; exact Or.inr rfl
  · rcases hrest with ⟨e, _, ht⟩ | ⟨_, ht⟩ | ⟨t, ts, _, ht⟩ <;>
      (rw [ht]; exact Or.inr rfl)

/-- Witness for C4 amended: in an environment whose completions always
succeed and whose route responses parse to objects, a turn ends idle. -/
theorem turn_no_unhandled_error_witness :
    (runTurn envDirect wTools "hi").2 = TurnOutcome.exit ∨
    (runTurn envDirect wTools "hi").2 = TurnOutcome.idle :=
  turn_no_unhandled_error envDirect wTools "hi" (fun _ => ⟨"X", rfl⟩)
    (fun _ _ _ hj => ⟨[("use_tool", Json.bool false)], (Option.some.inj hj).symm⟩)

/-- C5: when a validated tool call's invocation raises, the exception is
caught, a notice carrying the underlying message is printed, and the turn
ends idle — the session continues. -/
theorem tool_failure_reported (env : Env) (tools : List Tool) (line : String)
    (r resp e : String) (kvs tkvs args : List (String × Json)) (name : String)
    (hx : exitWords.contains (pyLower (pyStrip line)) = false)
    (hr : env.llm (get_router_prompt (pyStrip line) tools) = Except.ok r)
    (hl : env.loads r = some (Json.obj kvs))
    (hu : jsonGet kvs "use_tool" = some (Json.bool true))
    (hresp : env.llm (get_tool_selection_prompt (pyStrip line) tools) = Except.ok resp)
    (hval : is_valid_tool_call env.loads resp tools = true)
    (hlo : env.loads resp = some (Json.obj tkvs))
    (hname : jsonGet tkvs "tool" = some (Json.str name))
    (hargs : jsonGet tkvs "arguments" = some (Json.obj args))
    (hct : env.callTool name args = Except.error e) :
    runTurn env tools line =
      ([Event.gatewayCall (get_router_prompt (pyStrip line) tools),
        Event.gatewayCall (get_tool_selection_prompt (pyStrip line) tools),
        Event.dispatchCall name args,
        Event.printed (toolFailedNotice e)], TurnOutcome.idle) ∧
    Event.printed (toolFailedNotice e) ∈ (runTurn env tools line).1 ∧
    (runTurn env tools line).2 = TurnOutcome.idle := by
  have ht := runTurn_toolfail_eq env tools line r resp e kvs tkvs args name
    hx hr hl hu hresp hval hlo hname hargs hct
  refine ⟨ht, ?_, ?_⟩
  · rw [ht]; simp
  · rw [ht]

/-- Witness for C5: in `envToolFail` the tool raises `boom`; the notice
carries the message and the turn ends idle. -/
theorem tool_failure_reported_witness :
    runTurn envToolFail wTools "q" =
      ([Event.gatewayCall (get_router_prompt (pyStrip "q") wTools),
        Event.gatewayCall (get_tool_selection_prompt (pyStrip "q") wTools),
        Event.dispatchCall "bmi" [],
        Event.printed (toolFailedNotice "boom")], TurnOutcome.idle) ∧
    Event.printed (toolFailedNotice "boom") ∈ (runTurn envToolFail wTools "q").1 ∧
    (runTurn envToolFail wTools "q").2 = TurnOutcome.idle :=
  tool_failure_reported envToolFail wTools "q" "X" "X" "boom" comboKvs comboKvs
    [] "bmi" (by decide) rfl rfl rfl rfl rfl rfl rfl rfl rfl

/-- C6: on a turn whose route decision is an object with `use_tool = false`,
the loop issues exactly one completion-gateway call for the direct answer
(the only other gateway call of the turn is the preceding route-decision
call) and no dispatch call. -/
theorem direct_answer_one_call (env : Env) (tools : List Tool) (line : String)
    (r ans : String) (kvs : List (String × Json))
    (hx : exitWords.contains (pyLower (pyStrip line)) = false)
    (hr : env.llm (get_router_prompt (pyStrip line) tools) = Except.ok r)
    (hl : env.loads r = some (Json.obj kvs))
    (hu : jsonGet kvs "use_tool" = some (Json.bool false))
    (ha : env.llm (pyStrip line) = Except.ok ans) :
    runTurn env tools line =
      ([Event.gatewayCall (get_router_prompt (pyStrip line) tools),
        Event.printed directHeader,
        Event.gatewayCall (pyStrip line), Event.printed ans],
       TurnOutcome.idle) ∧
    ((runTurn env tools line).1.filter Event.isDispatch).length = 0 ∧
    ((runTurn env tools line).1.filter Event.isGateway).length = 2 := by
  have ht := runTurn_direct_eq env tools line r ans kvs (some (Json.bool false))
    hx hr hl hu (by simp) ha
  refine ⟨ht, ?_, ?_⟩ <;> rw [ht] <;> simp [Event.isDispatch, Event.isGateway]

/-- Witness for C6: a concrete `use_tool = false` turn makes two gateway
calls in total, one of them the direct answer, and zero dispatch calls. -/
theorem direct_answer_one_call_witness :
    runTurn envDirect wTools "hi" =
      ([Event.gatewayCall (get_router_prompt (pyStrip "hi") wTools),
        Event.printed directHeader,
        Event.gatewayCall (pyStrip "hi"), Event.printed "X"],
       TurnOutcome.idle) ∧
    ((runTurn envDirect wTools "hi").1.filter Event.isDispatch).length = 0 ∧
    ((runTurn envDirect wTools "hi").1.filter Event.isGateway).length = 2 :=
  direct_answer_one_call envDirect wTools "hi" "X" "X"
    [("use_tool", Json.bool false)] (by decide) rfl rfl rfl rfl

/-- C8: both prompt builders are pure Lean functions of `(query, catalog)`
with no effects, so repeated calls on identical inputs produce byte-identical
prompt text, for every query and catalog including the empty one. -/
theorem prompt_builders_deterministic (q q' : String) (ts ts' : List Tool)
    (hq : q = q') (ht : ts = ts') :
    get_router_prompt q ts = get_router_prompt q' ts' ∧
    get_tool_selection_prompt q ts = get_tool_selection_prompt q' ts' := by
  subst hq; subst ht
  exact ⟨rfl, rfl⟩

/-- Witness for C8: determinism at a concrete query and at the empty
catalog. -/
theorem prompt_builders_deterministic_witness :
    (get_router_prompt "Tell me a joke" [] = get_router_prompt "Tell me a joke" [] ∧
     get_tool_selection_prompt "Tell me a joke" [] =
       get_tool_selection_prompt "Tell me a joke" []) ∧
    (get_router_prompt "What is my BMI?" wTools =
       get_router_prompt "What is my BMI?" wTools ∧
     get_tool_selection_prompt "What is my BMI?" wTools =
       get_tool_selection_prompt "What is my BMI?" wTools) :=
  ⟨prompt_builders_deterministic "Tell me a joke" "Tell me a joke" [] [] rfl rfl,
   prompt_builders_deterministic "What is my BMI?" "What is my BMI?" wTools wTools rfl rfl⟩

/-- Counterexample for C9: when the greeting completion call fails, the
session crashes before reading any query — there is no static-greeting
fallback and the loop never starts. -/
theorem greeting_failure_counterexample :
    run envGatewayDown wTools ["hello"] =
      ([Event.gatewayCall greetingPrompt], SessionEnd.crashed "connection error") := rfl

/-- C9 amended: on entry the loop makes a one-time greeting completion call
with a fixed instructional prompt and prints the result before reading any
query; if that call fails, the exception propagates and the session ends
before accepting any query — there is no static-greeting fallback. -/
theorem greeting_behavior (env : Env) (tools : List Tool) (inputs : List String) :
    (∀ g, env.llm greetingPrompt = Except.ok g →
      run env tools inputs =
        (Event.gatewayCall greetingPrompt :: Event.printed g ::
           (runLoop env tools inputs).1, (runLoop env tools inputs).2)) ∧
    (∀ e, env.llm greetingPrompt = Except.error e →
      run env tools inputs = ([Event.gatewayCall greetingPrompt],
        SessionEnd.crashed e)) := by
  constructor
  · intro g hg
    unfold run
    simp only [hg]
  · intro e he
    unfold run
    simp only [he]

/-- Witness for C9 amended: a successful greeting is printed before the
first turn's events; a failed greeting crashes the session at once. -/
theorem greeting_behavior_witness :
    run envDirect wTools ["exit"] =
      (Event.gatewayCall greetingPrompt :: Event.printed "X" ::
         (runLoop envDirect wTools ["exit"]).1,
       (runLoop envDirect wTools ["exit"]).2) ∧
    run envGatewayDown wTools [] =
      ([Event.gatewayCall greetingPrompt], SessionEnd.crashed "connection error") :=
  ⟨(greeting_behavior envDirect wTools ["exit"]).1 "X" rfl,
   (greeting_behavior envGatewayDown wTools []).2 "connection error" rfl⟩

/-- C10: for a route response parsing to a JSON object, the tool path is
taken exactly when the `use_tool` value is the boolean `true` (the next
action after the router call is the selection gateway call); any other value
— missing key, `false`, a truthy non-boolean such as `1` or `"true"`, or any
other JSON value — sends the turn down the direct-answer path, printing the
direct-answer header and the answer, with no fallback notice. -/
theorem route_strict_true (env : Env) (tools : List Tool) (line : String)
    (r : String) (kvs : List (String × Json))
    (hx : exitWords.contains (pyLower (pyStrip line)) = false)
    (hr : env.llm (get_router_prompt (pyStrip line) tools) = Except.ok r)
    (hl : env.loads r = some (Json.obj kvs)) :
    (jsonGet kvs "use_tool" = some (Json.bool true) →
      ∃ rest outcome,
        runTurn env tools line =
          (Event.gatewayCall (get_router_prompt (pyStrip line) tools) ::
           Event.gatewayCall (get_tool_selection_prompt (pyStrip line) tools) ::
           rest, outcome)) ∧
    (∀ v, jsonGet kvs "use_tool" = v → v ≠ some (Json.bool true) →
      ∀ ans, env.llm (pyStrip line) = Except.ok ans →
        runTurn env tools line =
          ([Event.gatewayCall (get_router_prompt (pyStrip line) tools),
            Event.printed directHeader,
            Event.gatewayCall (pyStrip line), Event.printed ans],
           TurnOutcome.idle)) := by
  constructor
  · intro hu
    rcases runTurn_cases env tools line with
      ⟨hx', _⟩ | ⟨e, _, hr', ht⟩ | ⟨r', e, _, hr', hl', _, ht⟩ |
      ⟨r', ans, _, hr', hl', _, ht⟩ | ⟨r', j, _, hr', hl', hj, ht⟩ |
      ⟨r', kvs', v, e, _, hr', hl', hu', hv, _, ht⟩ |
      ⟨r', kvs', v, ans, _, hr', hl', hu', hv, _, ht⟩ |
      ⟨r', kvs', e, _, _, _, _, _, ht⟩ |
      ⟨r', kvs', resp, _, _, _, _, _, _, ht⟩ |
      ⟨r', kvs', resp, tkvs, nm, ags, _, _, _, _, _, _, _, _, _, _, hrest⟩
    · rw [hx] at hx'; cases hx'
    · rw [hr] at hr'; cases hr'
    · rw [hr] at hr'
      obtain rfl := (Except.ok.inj hr').symm
      rw [hl] at hl'; cases hl'
    · rw [hr] at hr'
      obtain rfl := (Except.ok.inj hr').symm
      rw [hl] at hl'; cases hl'
    · rw [hr] at hr'
      obtain rfl := (Except.ok.inj hr').symm
      rw [hl] at hl'
      exact absurd (Option.some.inj hl').symm (hj kvs)
    · rw [hr] at hr'
      obtain rfl := (Except.ok.inj hr').symm
      rw [hl] at hl'
      obtain rfl := Json.obj.inj (Option.some.inj hl').symm
      rw [hu] at hu'
      exact absurd hu'.symm hv
    · rw [hr] at hr'
      obtain rfl := (Except.ok.inj hr').symm
      rw [hl] at hl'
      obtain rfl := Json.obj.inj (Option.some.inj hl').symm
      rw [hu] at hu'
      exact absurd hu'.symm hv
    · exact ⟨_, _, ht⟩
    · exact ⟨_, _, ht⟩
    · rcases hrest with ⟨e, _, ht⟩ | ⟨_, ht⟩ | ⟨t, ts, _, ht⟩ <;> exact ⟨_, _, ht⟩
  · intro v hu hv ans ha
    exact runTurn_direct_eq env tools line r ans kvs v hx hr hl hu hv ha

/-- Witness for C10: `use_tool = true` issues the selection call;
`use_tool = 1` takes the direct path without a fallback notice. -/
theorem route_strict_true_witness :
    (∃ rest outcome,
      runTurn envToolOk wTools "q" =
        (Event.gatewayCall (get_router_prompt (pyStrip "q") wTools) ::
         Event.gatewayCall (get_tool_selection_prompt (pyStrip "q") wTools) ::
         rest, outcome)) ∧
    runTurn envNonBool wTools "q" =
      ([Event.gatewayCall (get_router_prompt (pyStrip "q") wTools),
        Event.printed directHeader,
        Event.gatewayCall (pyStrip "q"), Event.printed "X"],
       TurnOutcome.idle) :=
  ⟨(route_strict_true envToolOk wTools "q" "X" comboKvs (by decide) rfl rfl).1 rfl,
   (route_strict_true envNonBool wTools "q" "X" [("use_tool", Json.num 1)]
      (by decide) rfl rfl).2 (some (Json.num 1)) rfl (by simp) "X" rfl⟩
